import Mathlib

/-!
Verification of the unit-normalization core of clean_extractions.py
(class Cleaner).

The dataframe is embedded as a list of rows; every column consumed or
produced by the cleaner is a field of the row structure, with Option
marking a missing (NaN) cell.  Real-valued cells are embedded as exact
rationals.  Python string operations (lower, strip, replace, split,
startswith, the in operator) are reimplemented on lists of characters so
that every classification rule of the source is reproduced literally.
Fallible steps return Except.  The unit loop of correct_units fails on
every unit it processes: a unit string splitting into more than three
"/"-separated parts fails first, in the token decomposition, with the
unpacking ValueError; any unit whose decomposition succeeds then reaches
the self.values_to_SI call, which mis-binds the Cleaner instance to the
param_per_unit_df parameter (values_to_SI is defined without a self
parameter), so the iterrows access inside raises AttributeError before
anything is written.  Both raises are modelled as error results, so a
cleaning pass completes exactly when the frame holds no
concentration-like value unit, and then produces only the three
time-derived columns.  The in-place mutation of the dataframe owned by
the Cleaner and the defensive copy returned by clean_dataframe are
modelled with a tiny heap of dataframe cells addressed by numeric
references.
-/

/-! ## Python string primitives (on lists of characters) -/

/-- Python str.lower, restricted to the ASCII range the data uses. -/
def pyLower (s : List Char) : List Char := s.map Char.toLower

/-- Python s.startswith(needle). -/
def pyStartsWith (needle s : List Char) : Bool := needle.isPrefixOf s

/-- Python membership test needle in s (contiguous substring). -/
def pyIn (needle : List Char) : List Char → Bool
  | [] => needle.isEmpty
  | c :: rest => needle.isPrefixOf (c :: rest) || pyIn needle rest

/-- Python s.strip(c) for a single strip character: removes every leading
and trailing occurrence of c. -/
def pyStripChar (s : List Char) (c : Char) : List Char :=
  ((s.dropWhile (fun x => x == c)).reverse.dropWhile (fun x => x == c)).reverse

/-- Python s.replace(" ", ""). -/
def pyRemoveSpaces (s : List Char) : List Char := s.filter (fun c => !(c == ' '))

/-- Python s.replace("gm", "mg"): left-to-right, non-overlapping. -/
def replace_gm_mg : List Char → List Char
  | 'g' :: 'm' :: t => 'm' :: 'g' :: replace_gm_mg t
  | c :: t => c :: replace_gm_mg t
  | [] => []

/-- Helper for pySplitOnSlash, accumulating the current segment reversed. -/
def pySplitAux : List Char → List Char → List (List Char)
  | acc, [] => [acc.reverse]
  | acc, c :: t => if c == '/' then acc.reverse :: pySplitAux [] t else pySplitAux (c :: acc) t

/-- Python s.split("/"): always returns at least one (possibly empty) part. -/
def pySplitOnSlash (s : List Char) : List (List Char) := pySplitAux [] s

/-- Helper for pyUnique carrying the set of already seen strings. -/
def pyUniqueAux : List String → List String → List String
  | _, [] => []
  | seen, x :: t => if x ∈ seen then pyUniqueAux seen t else x :: pyUniqueAux (x :: seen) t

/-- Pandas Series.unique: distinct values in order of first appearance. -/
def pyUnique (l : List String) : List String := pyUniqueAux [] l

/-! ## Data model -/

/-- One observation of the eTox extraction.  The first seven fields are the
columns consumed by the Cleaner; the last five are the derived columns it
produces, none present (missing) on an input row. -/
structure Row where
  timepoint : Option ℚ
  timepoint_unit : String
  animal_age : Option ℚ
  animal_age_unit : String
  parameter : String
  value : ℚ
  value_unit : String
  age_at_start_days : Option ℚ := none
  timepoint_days : Option ℚ := none
  timepoint_age_days : Option ℚ := none
  average_value_fixed : Option ℚ := none
  unit_fixed : Option String := none
deriving DecidableEq

/-- The dataframe owned by the Cleaner. -/
abbrev Df := List Row

/-- Pandas comparison cell < 0: false on a missing cell, as NaN
comparisons are false in pandas. -/
def optIsNeg (x : Option ℚ) : Bool :=
  match x with
  | some v => decide (v < 0)
  | none => false

/-! ## Row filter (Cleaner.remove_nans, lines 59-65) -/

/-- Cleaner.remove_nans: drop rows whose timepoint is negative, then drop
rows whose timepoint or animal age is missing. -/
def remove_nans (df : Df) : Df :=
  ((df : List Row).filter (fun r => !(optIsNeg r.timepoint))).filter
    (fun r => r.timepoint.isSome && r.animal_age.isSome)

/-! ## Time normalizer (lines 67-102) -/

/-- Row-wise effect of Cleaner.animal_age_transformation: the four masked
assignments to the age_at_start(days) column are disjoint, so they act
independently on each row; an unmatched unit string leaves the derived
cell missing. -/
def ageMapRow (r : Row) : Row :=
  if r.animal_age_unit ∈ ["Weeks", "Week", "weeks", "Weels", "Weeka"] then
    { r with age_at_start_days := r.animal_age.map (fun a => a * 7) }
  else if r.animal_age_unit ∈ ["Months", "Month", "Moths", "Monhts"] then
    { r with age_at_start_days := r.animal_age.map (fun a => a * 30) }
  else if r.animal_age_unit ∈ ["Years", "Year"] then
    { r with age_at_start_days := r.animal_age.map (fun a => a * 360) }
  else if r.animal_age_unit ∈ ["Days", "Day", "0"] then
    { r with age_at_start_days := r.animal_age }
  else r

/-- Cleaner.animal_age_transformation. -/
def animal_age_transformation (df : Df) : Df := (df : List Row).map ageMapRow

/-- The timepoint(days) cell written by the six masked assignments of
Cleaner.timepoint_transformation; an unmatched unit leaves the cell as it
was (missing on a fresh row). -/
def tpDays (r : Row) : Option ℚ :=
  if r.timepoint_unit ∈ ["Weeks", "Week", "WEEK", "week"] then r.timepoint.map (fun t => t * 7)
  else if r.timepoint_unit ∈ ["Months", "Month"] then r.timepoint.map (fun t => t * 30)
  else if r.timepoint_unit ∈ ["Years"] then r.timepoint.map (fun t => t * 360)
  else if r.timepoint_unit ∈ ["Hours"] then r.timepoint.map (fun t => t / 24)
  else if r.timepoint_unit ∈ ["Minutes"] then r.timepoint.map (fun t => t / 1440)
  else if r.timepoint_unit ∈ ["Days", "Day", "Day(s)", "day"] then r.timepoint
  else r.timepoint_days

/-- Row-wise effect of Cleaner.timepoint_transformation, lines 87-102.
The final line sums the last two columns of the frame, which at that
point are age_at_start(days) and timepoint(days); pandas sum(axis=1)
skips missing cells by default, so a missing addend counts as 0 and the
sum is always present. -/
def tpMapRow (r : Row) : Row :=
  let r1 := { r with timepoint_days := tpDays r }
  { r1 with timepoint_age_days := some (r1.age_at_start_days.getD 0 + r1.timepoint_days.getD 0) }

/-- Cleaner.timepoint_transformation. -/
def timepoint_transformation (df : Df) : Df := (df : List Row).map tpMapRow

/-! ## Unit classifier, step A (Cleaner.get_concentration_units, lines 104-154) -/

/-- The if/elif chain of Cleaner.get_concentration_units: every branch
appends the unit, so a string is collected exactly when some branch
condition holds. -/
def isConcUnit (u : String) : Bool :=
  let lu := pyLower u.data
  if pyIn "mg".data lu then true
  else if pyStartsWith "g".data (pyStripChar lu '(') then true
  else if pyIn "mol".data lu then true
  else if pyIn "milligrams".data lu then true
  else if pyStartsWith "ng".data lu then true
  else if pyStartsWith "ug".data lu then true
  else if pyIn "pg".data lu then true
  else if pyIn "ratio".data lu then true
  else if pyStartsWith "mm".data lu then true
  else if pyStartsWith "mcg".data lu then true
  else if pyIn "m g ".data lu then true
  else if pyStartsWith "mcm".data lu then true
  else if pyIn "microg".data lu then true
  else if pyStartsWith "um".data lu then true
  else if pyStartsWith "nm".data lu then true
  else if pyIn "pmoi".data lu then true
  else if pyStartsWith "MNOL".data u.data then true
  else if pyIn "nrnol/L".data u.data then true
  else if pyIn "m e q".data lu || pyIn "meq".data lu then true
  else if pyIn "MAEQ/L".data u.data || pyIn "ME Q/L".data u.data then true
  else false

/-- The twenty classification rules of get_concentration_units as
independent predicates, in source order. -/
def concRules : List (String → Bool) :=
  [ fun u => pyIn "mg".data (pyLower u.data)
  , fun u => pyStartsWith "g".data (pyStripChar (pyLower u.data) '(')
  , fun u => pyIn "mol".data (pyLower u.data)
  , fun u => pyIn "milligrams".data (pyLower u.data)
  , fun u => pyStartsWith "ng".data (pyLower u.data)
  , fun u => pyStartsWith "ug".data (pyLower u.data)
  , fun u => pyIn "pg".data (pyLower u.data)
  , fun u => pyIn "ratio".data (pyLower u.data)
  , fun u => pyStartsWith "mm".data (pyLower u.data)
  , fun u => pyStartsWith "mcg".data (pyLower u.data)
  , fun u => pyIn "m g ".data (pyLower u.data)
  , fun u => pyStartsWith "mcm".data (pyLower u.data)
  , fun u => pyIn "microg".data (pyLower u.data)
  , fun u => pyStartsWith "um".data (pyLower u.data)
  , fun u => pyStartsWith "nm".data (pyLower u.data)
  , fun u => pyIn "pmoi".data (pyLower u.data)
  , fun u => pyStartsWith "MNOL".data u.data
  , fun u => pyIn "nrnol/L".data u.data
  , fun u => pyIn "m e q".data (pyLower u.data) || pyIn "meq".data (pyLower u.data)
  , fun u => pyIn "MAEQ/L".data u.data || pyIn "ME Q/L".data u.data ]

/-- Cleaner.get_concentration_units: scan the distinct value-unit strings
of the frame and keep those the if/elif chain classifies. -/
def get_concentration_units (df : Df) : List String :=
  (pyUnique ((df : List Row).map (fun r => r.value_unit))).filter isConcUnit

/-! ## Molecular weight lookup (Cleaner.get_parameter_weights, lines 156-176) -/

/-- One pubchempy compound returned by the external lookup; the weight is
None when the service has no value for it. -/
structure Compound where
  molecular_weight : Option ℚ
  molecular_formula : String
deriving DecidableEq

/-- One step of the inner loop over compounds: the dict entry is
overwritten whenever the current compound has a truthy (non-null,
non-zero) weight, so the last such weight survives. -/
def truthyWeight (acc : Option ℚ) (c : Compound) : Option ℚ :=
  match c.molecular_weight with
  | some w => if w = 0 then acc else some w
  | none => acc

/-- The weight the inner loop of get_parameter_weights leaves in the dict
for one substance: the last truthy weight in the returned match list. -/
def lastNonNullWeight (cs : List Compound) : Option ℚ := cs.foldl truthyWeight none

/-- Dict update keyed by substance name; no update when the loop found no
truthy weight. -/
def updateWeight (d : String → Option ℚ) (p : String) : Option ℚ → (String → Option ℚ)
  | none => d
  | some w => fun q => if q = p then some w else d q

/-- Outer loop of get_parameter_weights over the substance list. -/
def gpwAux (lookup : String → List Compound) : (String → Option ℚ) → List String → (String → Option ℚ)
  | d, [] => d
  | d, p :: rest => gpwAux lookup (updateWeight d p (lastNonNullWeight (lookup p))) rest

/-- Cleaner.get_parameter_weights, with the external pubchempy lookup
passed in as a collaborator. -/
def get_parameter_weights (lookup : String → List Compound) (ps : List String) : String → Option ℚ :=
  gpwAux lookup (fun _ => none) ps

/-- Modelled from the spec: the external-interface contract says the
system consumes the first match that has a non-null weight.  This
definition follows the words of the spec and is only compared against
get_parameter_weights, which is built from the source. -/
def specFirstNonNullWeight : List Compound → Option ℚ
  | [] => none
  | c :: t =>
    match c.molecular_weight with
    | some w => if w = 0 then specFirstNonNullWeight t else some w
    | none => specFirstNonNullWeight t

/-! ## Value converter (Cleaner.convert_values_to_SI, lines 178-213) -/

/-- Cleaner.convert_values_to_SI: fixed scale, basis, volume-divisor and
time arithmetic driven by membership in the token list.  The float
literals 1e-3, 1e-6, 1e-9, 1e-1 of the source are embedded as the exact
rationals they denote. -/
def convert_values_to_SI (value weight : ℚ) (arguments : List String) : ℚ :=
  let sv1 :=
    if "micro" ∈ arguments then value * (1/1000)
    else if "nano" ∈ arguments then value * (1/1000000)
    else if "pico" ∈ arguments then value * (1/1000000000)
    else value
  let sv2 :=
    if "gram" ∈ arguments then (sv1 * 1000) / weight
    else if "mol" ∈ arguments then sv1 * 1000
    else if "miligram" ∈ arguments then sv1 / weight
    else sv1
  let sv3 :=
    if "mililiter" ∈ arguments then sv2 * (1/1000)
    else if "deciliter" ∈ arguments then sv2 * (1/10)
    else sv2
  if "minute" ∈ arguments then sv3 * 60 else sv3

/-! ## Unit classifier, step C (token decomposition inside
Cleaner.correct_units, lines 247-303) -/

/-- Two-part branch of correct_units (numerator/denominator). -/
def decompose2 (p0 p1 : List Char) : List String :=
  let u := pyLower p0
  let liter := pyLower p1
  (if pyIn "u".data u || pyStartsWith "mc".data u || pyIn "micro".data u then ["micro"]
   else if pyStartsWith "p".data u then ["pico"]
   else if pyStartsWith "n".data u then ["nano"]
   else [])
  ++ (if pyStartsWith "mol".data (pyStripChar (pyStripChar (pyStripChar (pyLower u) '?') '*') '<')
      then ["mol"] else [])
  ++ (if pyStartsWith "mg".data (replace_gm_mg (pyRemoveSpaces u)) || pyStartsWith "mk".data u
         || pyIn "milligrams".data (pyLower u) then ["miligram"]
      else if pyStartsWith "g".data (pyStripChar (pyLower u) '(') then ["gram"]
      else [])
  ++ (if pyIn "dl".data liter || pyIn "deciliter".data liter
         || pyIn "100ml".data (pyLower (pyRemoveSpaces liter)) then ["deciliter"]
      else if pyIn "ml".data liter then ["mililiter"]
      else [])

/-- Three-part branch of correct_units (numerator/time/denominator). -/
def decompose3 (p0 p1 p2 : List Char) : List String :=
  let u := pyLower p0
  let time := pyLower p1
  let liter := pyLower p2
  (if pyIn "n".data u then ["nano"] else if pyIn "u".data u then ["micro"] else [])
  ++ (if pyIn "min".data time then ["minute"] else if pyIn "ml".data time then ["mililiter"] else [])
  ++ (if pyIn "min".data liter then ["minute"] else if pyStartsWith "g".data liter then ["gram"] else [])

/-- Single-part branch of correct_units (no "/" in the unit). -/
def decompose1 (p0 : List Char) : List String :=
  let u := pyLower p0
  (if pyStartsWith "n".data u then ["nano"]
   else if pyStartsWith "u".data u || pyIn "micro".data u then ["micro"]
   else [])
  ++ (if pyStartsWith "g".data u then ["gram"] else if pyStartsWith "mg".data u then ["miligram"] else [])
  ++ (if pyIn "%".data u || pyIn "100ml".data (pyLower (pyRemoveSpaces u)) then ["deciliter"] else [])

/-- Branch dispatch of correct_units on the part count of the split unit
string.  A split into more than three parts reaches the three-variable
unpacking of the source, which fails. -/
def decomposeParts (parts : List (List Char)) : Except String (List String) :=
  if parts.length = 2 then .ok (decompose2 (parts.getD 0 []) (parts.getD 1 []))
  else if parts.length > 2 then
    if parts.length = 3 then .ok (decompose3 (parts.getD 0 []) (parts.getD 1 []) (parts.getD 2 []))
    else .error "too many values to unpack"
  else .ok (decompose1 (parts.getD 0 []))

/-- Token decomposition of one unit string. -/
def decomposeUnit (u : String) : Except String (List String) :=
  decomposeParts (pySplitOnSlash u.data)

/-! ## Value converter application (lines 305-315) -/

/-- Cleaner.correct_units: iterate over the concentration-like units.  For
each unit the token decomposition runs first (lines 247-303), so a unit
splitting into more than three parts fails there with the unpacking
ValueError.  Otherwise control reaches line 308, where self.values_to_SI
mis-binds the Cleaner instance to the param_per_unit_df parameter
(values_to_SI, line 215, has no self parameter), and the
param_per_unit_df.iterrows() call at line 227 raises AttributeError,
since a Cleaner has no such attribute.  Nothing is ever written to the
frame (the assignments of lines 310-312 are unreachable) and no later
unit is processed.  Only with no concentration-like units does the loop
body never run, and line 314 then returns a copy of the frame. -/
def correctUnits : List String → (String → Option ℚ) → Df → Except String Df
  | [], _, df => .ok df
  | u :: _, _, _ =>
    match decomposeUnit u with
    | .error e => .error e
    | .ok _ => .error "AttributeError: Cleaner object has no attribute iterrows"

/-! ## Main pipeline (Cleaner.clean_dataframe, lines 31-57) -/

/-- Cleaner.clean_dataframe value semantics: row filter, the two time
transformations, then unit correction over the detected concentration
units with the weights fetched through the external lookup. -/
def cleanPipeline (lookup : String → List Compound) (df : Df) : Except String Df :=
  let df3 := timepoint_transformation (animal_age_transformation (remove_nans df))
  let concentration_units := get_concentration_units df3
  let param_list :=
    pyUnique (((df3 : List Row).filter
      (fun r => concentration_units.contains r.value_unit)).map (fun r => r.parameter))
  correctUnits concentration_units (get_parameter_weights lookup param_list) df3

/-! ## Heap model for the in-place mutation and the defensive copy -/

/-- A store of dataframe objects; a reference is an index into it. -/
structure Heap where
  cells : List Df
deriving DecidableEq

/-- Dereference (read the dataframe object behind a reference). -/
def readRef (h : Heap) (i : Nat) : Df := h.cells.getD i []

/-- Overwrite the dataframe object behind a reference. -/
def writeRef (h : Heap) (i : Nat) (d : Df) : Heap := ⟨h.cells.set i d⟩

/-- Cleaner.clean_dataframe object semantics: the pipeline mutates the
dataframe held by the Cleaner in place (the inplace drops and the column
assignments all write through self.df), and the method returns
self.df.copy(), a fresh object with the same value. -/
def clean_dataframe (lookup : String → List Compound) (h : Heap) (self : Nat) :
    Except String (Heap × Nat) :=
  match cleanPipeline lookup (readRef h self) with
  | .error e => .error e
  | .ok out =>
    let cells2 := h.cells.set self out
    .ok (⟨cells2 ++ [out]⟩, cells2.length)

/-! ## Concrete data used by the witnesses -/

/-- External lookup standing in for pubchempy: glucose only. -/
def glucoseLookup : String → List Compound :=
  fun nm => if nm = "Glucose" then [⟨some (4504/25), "C6H12O6"⟩] else []

/-- One well-formed input row: 50 mg/dL of glucose measured at day 1 in a
two-week-old animal. -/
def glucoseRow : Row :=
  { timepoint := some 1
    timepoint_unit := "Days"
    animal_age := some 2
    animal_age_unit := "Weeks"
    parameter := "Glucose"
    value := 50
    value_unit := "mg/dL" }

/-- One well-formed input row whose value unit matches no classification
rule, so the cleaning pass has no concentration-like unit to process and
can run to completion. -/
def beatsRow : Row := { glucoseRow with value_unit := "beats" }

/-- The row the pipeline produces from beatsRow: the three time-derived
cells are set and the two conversion cells stay missing. -/
def beatsRowCleaned : Row :=
  { beatsRow with
    age_at_start_days := some 14
    timepoint_days := some 1
    timepoint_age_days := some 15 }

/-! ## Helper lemmas -/

lemma if_true_or_eq (c b : Bool) : (if c then true else b) = (c || b) := by
  cases c <;> simp

lemma isConcUnit_eq_any (u : String) : isConcUnit u = concRules.any (fun p => p u) := by
  simp only [isConcUnit, concRules, List.any_cons, List.any_nil, if_true_or_eq]

lemma perm_any_eq {α : Type} {l1 l2 : List (α → Bool)} (h : l1.Perm l2) (x : α) :
    l1.any (fun p => p x) = l2.any (fun p => p x) := by
  cases hb : l1.any (fun p => p x) <;> cases hc : l2.any (fun p => p x) <;> try rfl
  · exfalso
    rw [List.any_eq_true] at hc
    obtain ⟨p, hp, hpx⟩ := hc
    have hcontra : l1.any (fun p => p x) = true :=
      List.any_eq_true.mpr ⟨p, h.mem_iff.mpr hp, hpx⟩
    rw [hb] at hcontra
    exact Bool.false_ne_true hcontra
  · exfalso
    rw [List.any_eq_true] at hb
    obtain ⟨p, hp, hpx⟩ := hb
    have hcontra : l2.any (fun p => p x) = true :=
      List.any_eq_true.mpr ⟨p, h.mem_iff.mp hp, hpx⟩
    rw [hc] at hcontra
    exact Bool.false_ne_true hcontra

lemma pyUniqueAux_mem : ∀ (l seen : List String) (x : String),
    x ∈ pyUniqueAux seen l ↔ x ∈ l ∧ x ∉ seen := by
  intro l
  induction l with
  | nil => intro seen x; simp [pyUniqueAux]
  | cons a t ih =>
    intro seen x
    simp only [pyUniqueAux]
    by_cases ha : a ∈ seen
    · rw [if_pos ha, ih]
      constructor
      · intro hx
        exact ⟨List.mem_cons_of_mem a hx.1, hx.2⟩
      · intro hx
        rcases List.mem_cons.mp hx.1 with h1 | h1
        · subst h1
          exact absurd ha hx.2
        · exact ⟨h1, hx.2⟩
    · rw [if_neg ha]
      constructor
      · intro hx
        rcases List.mem_cons.mp hx with h1 | h1
        · subst h1
          exact ⟨List.mem_cons_self x t, ha⟩
        · obtain ⟨h2, h3⟩ := (ih (a :: seen) x).mp h1
          refine ⟨List.mem_cons_of_mem a h2, ?_⟩
          intro hmem
          exact h3 (List.mem_cons_of_mem a hmem)
      · intro hx
        obtain ⟨h1, h2⟩ := hx
        by_cases hxa : x = a
        · subst hxa
          exact List.mem_cons_self x (pyUniqueAux (x :: seen) t)
        · rcases List.mem_cons.mp h1 with h3 | h3
          · exact absurd h3 hxa
          · apply List.mem_cons_of_mem
            apply (ih (a :: seen) x).mpr
            refine ⟨h3, ?_⟩
            intro hmem
            rcases List.mem_cons.mp hmem with h4 | h4
            · exact hxa h4
            · exact h2 h4

lemma pyUniqueAux_nodup : ∀ (l seen : List String), (pyUniqueAux seen l).Nodup := by
  intro l
  induction l with
  | nil => intro seen; simp [pyUniqueAux]
  | cons a t ih =>
    intro seen
    simp only [pyUniqueAux]
    by_cases ha : a ∈ seen
    · rw [if_pos ha]; exact ih seen
    · rw [if_neg ha, List.nodup_cons]
      refine ⟨?_, ih (a :: seen)⟩
      intro hmem
      exact (pyUniqueAux_mem t (a :: seen) a).mp hmem |>.2 (List.mem_cons_self a seen)

lemma correctUnits_ok_iff (units : List String) (w : String → Option ℚ) (df out : Df)
    (h : correctUnits units w df = .ok out) : units = [] ∧ out = df := by
  cases units with
  | nil => cases h; exact ⟨rfl, rfl⟩
  | cons u rest =>
    cases hd : decomposeUnit u with
    | error e => rw [correctUnits, hd] at h; cases h
    | ok args => rw [correctUnits, hd] at h; cases h

lemma mem_remove_nans {df : Df} {r : Row} (h : r ∈ remove_nans df) : r ∈ df :=
  (List.mem_filter.mp ((List.mem_filter.mp h).1)).1

lemma ageMapRow_avf (r : Row) : (ageMapRow r).average_value_fixed = r.average_value_fixed := by
  unfold ageMapRow
  split_ifs <;> rfl

lemma tpMapRow_avf (r : Row) : (tpMapRow r).average_value_fixed = r.average_value_fixed := rfl

lemma ageMapRow_uf (r : Row) : (ageMapRow r).unit_fixed = r.unit_fixed := by
  unfold ageMapRow
  split_ifs <;> rfl

lemma tpMapRow_uf (r : Row) : (tpMapRow r).unit_fixed = r.unit_fixed := rfl

lemma df3_fresh (df : Df) (h0 : ∀ x ∈ df, x.average_value_fixed = none ∧ x.unit_fixed = none) :
    ∀ r ∈ timepoint_transformation (animal_age_transformation (remove_nans df)),
      r.average_value_fixed = none ∧ r.unit_fixed = none := by
  intro r hr
  obtain ⟨rb, hrb, rfl⟩ := List.mem_map.mp hr
  obtain ⟨ra, hra, rfl⟩ := List.mem_map.mp hrb
  rw [tpMapRow_avf, ageMapRow_avf, tpMapRow_uf, ageMapRow_uf]
  exact h0 ra (mem_remove_nans hra)


lemma gpw_eval (lookup : String → List Compound) :
    ∀ (ps : List String) (d : String → Option ℚ) (nm : String),
    gpwAux lookup d ps nm =
      if nm ∈ ps ∧ (lastNonNullWeight (lookup nm)).isSome = true
      then lastNonNullWeight (lookup nm) else d nm := by
  intro ps
  induction ps with
  | nil => intro d nm; simp [gpwAux]
  | cons p rest ih =>
    intro d nm
    rw [gpwAux, ih]
    by_cases hp : nm = p
    · subst hp
      cases hsw : lastNonNullWeight (lookup nm) with
      | none => simp [updateWeight, List.mem_cons]
      | some w0 =>
        by_cases hr : nm ∈ rest <;> simp [updateWeight, hr, List.mem_cons]
    · have hupd : updateWeight d p (lastNonNullWeight (lookup p)) nm = d nm := by
        cases lastNonNullWeight (lookup p) with
        | none => rfl
        | some w0 => simp [updateWeight, hp]
      rw [hupd]
      simp [List.mem_cons, hp]

/-! ## Claim theorems -/

/-- C1, counterexample: for value 50, unit "mg/dL" and glucose weight
180.16 = 4504/25, the token decomposition gives miligram and deciliter,
so the code computes 50 / W * 1e-1 = 125/4504 (about 0.0278), not the
claimed 50 / W * 1000 * 1e-1 (about 27.75); likewise "ug/mL" gets no
basis token (weight unused), giving 50e-6 rather than the claimed
50e-3 / W * 1000 * 1e-3. -/
theorem C1_counterexample :
    decomposeUnit "mg/dL" = .ok ["miligram", "deciliter"]
    ∧ decomposeUnit "ug/mL" = .ok ["micro", "mililiter"]
    ∧ convert_values_to_SI 50 (4504/25) ["miligram", "deciliter"] = 125/4504
    ∧ (125/4504 : ℚ) ≠ 50 / (4504/25) * 1000 * (1/10)
    ∧ convert_values_to_SI 50 (4504/25) ["micro", "mililiter"] = 1/20000
    ∧ (1/20000 : ℚ) ≠ 50 * (1/1000) / (4504/25) * 1000 * (1/1000) := by
  refine ⟨rfl, rfl, by with_unfolding_all rfl, by norm_num, by with_unfolding_all rfl, by norm_num⟩

/-- C1, amended: a value with unit "mg/dL" and weight W converts as
value / W * 1e-1 (no 1000 factor: the miligram branch divides by the
weight directly), and a value with unit "ug/mL" converts as
value * 1e-3 * 1e-3 independently of the weight (no basis token is
decided for "ug", so the molecular weight is never used). -/
theorem C1_amended (v w : ℚ) :
    decomposeUnit "mg/dL" = .ok ["miligram", "deciliter"]
    ∧ decomposeUnit "ug/mL" = .ok ["micro", "mililiter"]
    ∧ convert_values_to_SI v w ["miligram", "deciliter"] = v / w * (1/10)
    ∧ convert_values_to_SI v w ["micro", "mililiter"] = v * (1/1000) * (1/1000) := by
  refine ⟨rfl, rfl, ?_, ?_⟩ <;> with_unfolding_all rfl

/-- C2, code bug: correct_units raises for every concentration-like unit
it processes, never skipping.  A well-formed unit such as "mg/dL"
decomposes fine but then hits the mis-bound self.values_to_SI call of
line 308, whose iterrows access raises AttributeError; a degenerate unit
such as "mg/l/l/l" (concentration-like, four parts) raises the unpacking
ValueError already in the decomposition.  In both cases the cleaning
pass aborts instead of treating the unit as "no tokens decided". -/
theorem C2_conversion_raises :
    isConcUnit "mg/dL" = true
    ∧ correctUnits ["mg/dL"] (fun _ => none) [glucoseRow]
        = .error "AttributeError: Cleaner object has no attribute iterrows"
    ∧ isConcUnit "mg/l/l/l" = true
    ∧ correctUnits ["mg/l/l/l"] (fun _ => none) [glucoseRow]
        = .error "too many values to unpack"
    ∧ cleanPipeline glucoseLookup [{ glucoseRow with value_unit := "mg/l/l/l" }]
        = .error "too many values to unpack" := by
  refine ⟨rfl, rfl, rfl, rfl, ?_⟩
  with_unfolding_all rfl

/-- C3, code bug: the skip semantics the claim describes never executes.
For a row whose unit is concentration-like and whose parameter has no
entry in the weight table (empty lookup), correct_units raises the
AttributeError of the mis-bound values_to_SI call at line 308 before any
of the writes of lines 310-312, so no frame is returned at all; the rows
are untouched only because the whole call aborts. -/
theorem C3_conversion_raises :
    get_parameter_weights (fun _ => []) [glucoseRow.parameter] glucoseRow.parameter = none
    ∧ isConcUnit glucoseRow.value_unit = true
    ∧ correctUnits ["mg/dL"] (get_parameter_weights (fun _ => []) [glucoseRow.parameter])
        [glucoseRow]
        = .error "AttributeError: Cleaner object has no attribute iterrows" :=
  ⟨rfl, rfl, rfl⟩

/-- C4, code bug: no completed cleaning pass ever writes
average_value_fixed, so the claimed invariant is never exercised.  A
frame with a convertible glucose row makes the pass raise at the
mis-bound values_to_SI call; a pass that completes (value unit "beats"
matches no classification rule) leaves both average_value_fixed and
unit_fixed missing on every row. -/
theorem C4_conversion_raises :
    cleanPipeline glucoseLookup [glucoseRow]
      = .error "AttributeError: Cleaner object has no attribute iterrows"
    ∧ cleanPipeline glucoseLookup [beatsRow] = .ok [beatsRowCleaned]
    ∧ beatsRowCleaned.average_value_fixed = none
    ∧ beatsRowCleaned.unit_fixed = none := by
  refine ⟨?_, ?_, rfl, rfl⟩ <;> with_unfolding_all rfl

/-- C5, counterexample: a row whose timepoint unit "Fortnights" matches no
known variant gets no timepoint(days), yet its timepoint_age(days) is NOT
missing: pandas sum(axis=1) skips missing cells, so the sum equals the
present addend (here the 14-day age) instead of propagating missingness. -/
theorem C5_counterexample :
    (timepoint_transformation (animal_age_transformation
      [{ glucoseRow with timepoint_unit := "Fortnights" }])).map Row.timepoint_days = [none]
    ∧ (timepoint_transformation (animal_age_transformation
      [{ glucoseRow with timepoint_unit := "Fortnights" }])).map Row.timepoint_age_days
        = [some 14] := by
  refine ⟨rfl, ?_⟩
  with_unfolding_all rfl

/-- C5, amended: after the time normalization step every row has
timepoint_age(days) equal to the sum of its two addends with a missing
addend counted as 0 (so the sum is always present, never missing); in
particular when both addends are present the sum is their true sum. -/
theorem C5_timepoint_age (df : Df) (r : Row) (a t : ℚ)
    (hmem : r ∈ timepoint_transformation df) :
    r.timepoint_age_days = some (r.age_at_start_days.getD 0 + r.timepoint_days.getD 0)
    ∧ (r.age_at_start_days = some a → r.timepoint_days = some t →
        r.timepoint_age_days = some (a + t)) := by
  obtain ⟨r0, hr0, rfl⟩ := List.mem_map.mp hmem
  have hbase : (tpMapRow r0).timepoint_age_days =
      some ((tpMapRow r0).age_at_start_days.getD 0 + (tpMapRow r0).timepoint_days.getD 0) := rfl
  refine ⟨hbase, ?_⟩
  intro ha ht
  rw [ha, ht] at hbase
  simpa using hbase

/-- C5, witness: the amended statement at a concrete row with both
addends present (age 14 days, timepoint 1 day). -/
theorem C5_timepoint_age_witness :
    ({ glucoseRow with
        age_at_start_days := some 14
        timepoint_days := some 1
        timepoint_age_days := some (14 + 1) } : Row).timepoint_age_days = some (14 + 1) :=
  (C5_timepoint_age [{ glucoseRow with age_at_start_days := some 14 }]
    { glucoseRow with
      age_at_start_days := some 14
      timepoint_days := some 1
      timepoint_age_days := some (14 + 1) } 14 1
    (by with_unfolding_all exact List.mem_singleton.mpr rfl)).2 rfl rfl

/-- C6, counterexample: when the lookup returns two matches with weights
100 and 200, the built table maps the name to 200, the weight of the LAST
non-null match (the loop keeps updating the dict entry without breaking),
not to 100, the weight of the first non-null match the claim names. -/
theorem C6_counterexample :
    get_parameter_weights (fun _ => [⟨some 100, "A"⟩, ⟨some 200, "B"⟩]) ["X"] "X" = some 200
    ∧ specFirstNonNullWeight [⟨some 100, "A"⟩, ⟨some 200, "B"⟩] = some 100
    ∧ some (200 : ℚ) ≠ some (100 : ℚ) := by
  refine ⟨rfl, rfl, by with_unfolding_all decide⟩

/-- C6, amended: for every substance name in the looked-up list, the
weight table maps the name to the weight of the last returned match with
a truthy (non-null, non-zero) weight. -/
theorem C6_amended (lookup : String → List Compound) (ps : List String) (nm : String)
    (hmem : nm ∈ ps) :
    get_parameter_weights lookup ps nm = lastNonNullWeight (lookup nm) := by
  unfold get_parameter_weights
  rw [gpw_eval]
  split_ifs with hcond
  · rfl
  · cases hsw : lastNonNullWeight (lookup nm) with
    | none => rfl
    | some w0 => exact absurd ⟨hmem, by rw [hsw]; rfl⟩ hcond

/-- C6, witness: the amended statement at a concrete one-entry lookup. -/
theorem C6_amended_witness :
    get_parameter_weights (fun _ => [⟨some 60, "CH4N2O"⟩]) ["Urea"] "Urea"
      = lastNonNullWeight ((fun _ => [(⟨some 60, "CH4N2O"⟩ : Compound)]) "Urea") :=
  C6_amended (fun _ => [⟨some 60, "CH4N2O"⟩]) ["Urea"] "Urea" (List.mem_singleton.mpr rfl)

/-- C7, counterexample: a row with timepoint 0 but missing animal age is
dropped by the missing-value filter, so "timepoint == 0 is always kept"
fails as stated. -/
theorem C7_counterexample :
    remove_nans [{ glucoseRow with timepoint := some 0, animal_age := none }] = []
    ∧ ({ glucoseRow with timepoint := some 0, animal_age := none } : Row).timepoint
        = some 0 := by
  refine ⟨?_, rfl⟩
  with_unfolding_all rfl

/-- C7, amended: the row filter keeps exactly the rows whose timepoint is
present and non-negative and whose animal age is present (so it drops
rows with negative timepoint or a missing timepoint or age, and no other
rows); a row with timepoint 0 is kept whenever its animal age is also
present, but not when the age is missing. -/
theorem C7_row_filter (df : Df) (r : Row) :
    (r ∈ remove_nans df ↔
      r ∈ df ∧ optIsNeg r.timepoint = false ∧ r.timepoint.isSome = true
        ∧ r.animal_age.isSome = true)
    ∧ (r ∈ df → r.timepoint = some 0 → r.animal_age.isSome = true → r ∈ remove_nans df) := by
  have hiff : r ∈ remove_nans df ↔
      r ∈ df ∧ optIsNeg r.timepoint = false ∧ r.timepoint.isSome = true
        ∧ r.animal_age.isSome = true := by
    unfold remove_nans
    rw [List.mem_filter, List.mem_filter]
    constructor
    · rintro ⟨⟨hdf, h1⟩, h2⟩
      rw [Bool.not_eq_true'] at h1
      rw [Bool.and_eq_true] at h2
      exact ⟨hdf, h1, h2.1, h2.2⟩
    · rintro ⟨hdf, h1, h2, h3⟩
      refine ⟨⟨hdf, ?_⟩, ?_⟩
      · rw [Bool.not_eq_true']
        exact h1
      · rw [Bool.and_eq_true]
        exact ⟨h2, h3⟩
  refine ⟨hiff, ?_⟩
  intro hdf h0 hage
  apply hiff.mpr
  refine ⟨hdf, ?_, ?_, hage⟩
  · rw [h0]
    unfold optIsNeg
    simp
  · rw [h0]
    rfl

/-- C7, witness: the amended filter characterization at a concrete kept
row with timepoint 0 and a present age. -/
theorem C7_row_filter_witness :
    ({ glucoseRow with timepoint := some 0 } : Row) ∈
      remove_nans [{ glucoseRow with timepoint := some 0 }] :=
  (C7_row_filter [{ glucoseRow with timepoint := some 0 }]
      { glucoseRow with timepoint := some 0 }).2
    (List.mem_singleton.mpr rfl) rfl rfl

/-- C8: get_concentration_units returns exactly the distinct value-unit
strings of the frame that satisfy at least one of the twenty
classification rules, each string at most once, and membership depends
only on the set of rules, not on the order they are tried (any
permutation of the rule list classifies identically). -/
theorem C8_conc_unit_detection (df : Df) (u : String) (rules2 : List (String → Bool))
    (hperm : rules2.Perm concRules) :
    (u ∈ get_concentration_units df ↔
      (∃ r ∈ df, r.value_unit = u) ∧ concRules.any (fun p => p u) = true)
    ∧ (get_concentration_units df).count u ≤ 1
    ∧ rules2.any (fun p => p u) = concRules.any (fun p => p u) := by
  refine ⟨?_, ?_, perm_any_eq hperm u⟩
  · unfold get_concentration_units pyUnique
    rw [List.mem_filter, pyUniqueAux_mem, isConcUnit_eq_any]
    constructor
    · rintro ⟨⟨hmem, -⟩, hc⟩
      obtain ⟨r, hr, hru⟩ := List.mem_map.mp hmem
      exact ⟨⟨r, hr, hru⟩, hc⟩
    · rintro ⟨⟨r, hr, hru⟩, hc⟩
      exact ⟨⟨List.mem_map.mpr ⟨r, hr, hru⟩, List.not_mem_nil u⟩, hc⟩
  · have hnd : (pyUnique ((df : List Row).map (fun r => r.value_unit))).Nodup :=
      pyUniqueAux_nodup _ []
    have hnd2 : (get_concentration_units df).Nodup := List.Nodup.filter _ hnd
    exact List.nodup_iff_count_le_one.mp hnd2 u

/-- C8, witness: the detection characterization at a concrete frame and
unit string, with the rule list taken in its own order. -/
theorem C8_conc_unit_detection_witness :
    ("mg/dL" ∈ get_concentration_units [glucoseRow] ↔
      (∃ r ∈ [glucoseRow], r.value_unit = "mg/dL")
        ∧ concRules.any (fun p => p "mg/dL") = true)
    ∧ (get_concentration_units [glucoseRow]).count "mg/dL" ≤ 1
    ∧ concRules.any (fun p => p "mg/dL") = concRules.any (fun p => p "mg/dL") :=
  C8_conc_unit_detection [glucoseRow] "mg/dL" concRules (List.Perm.refl concRules)

/-- C9, counterexample: "ng/mL" contains a slash, so it is decomposed by
the two-part branch, which gives BOTH the nano scale token and the
mililiter divisor token; the converted value is 10e-6 * 1e-3 = 1e-8, not
the claimed 1e-5 obtained from the scale step alone. -/
theorem C9_counterexample :
    decomposeUnit "ng/mL" = .ok ["nano", "mililiter"]
    ∧ convert_values_to_SI 10 500 ["nano", "mililiter"] = 1/100000000
    ∧ (1/100000000 : ℚ) ≠ 1/100000 := by
  refine ⟨rfl, by with_unfolding_all rfl, by norm_num⟩

/-- C9, amended: the decomposition of "ng/mL" yields the nano scale token
and the mililiter divisor token (and no basis token), so for value 10 the
converted value is 10 * 1e-6 * 1e-3 = 1e-8, whatever the weight. -/
theorem C9_amended (w : ℚ) :
    decomposeUnit "ng/mL" = .ok ["nano", "mililiter"]
    ∧ convert_values_to_SI 10 w ["nano", "mililiter"] = 10 * (1/1000000) * (1/1000) :=
  ⟨rfl, by with_unfolding_all rfl⟩

/-- C10, counterexample: with a concentration-like unit present ("mg/dL"
is classified), clean_dataframe raises the AttributeError of the
mis-bound values_to_SI call instead of returning anything, so no fresh
copy is produced and no conversion columns are ever added; the claimed
five derived columns and returned copy do not materialize. -/
theorem C10_counterexample :
    isConcUnit glucoseRow.value_unit = true
    ∧ clean_dataframe glucoseLookup ⟨[[glucoseRow]]⟩ 0
        = .error "AttributeError: Cleaner object has no attribute iterrows" := by
  refine ⟨rfl, ?_⟩
  with_unfolding_all rfl

/-- C10, amended: when clean_dataframe returns at all (which requires
that the frame holds no concentration-like value unit), it has run the
pipeline on the dataframe behind the reference held by the Cleaner,
written the result back through that same reference (in-place mutation
visible to the caller), and returned a fresh reference to an equal copy;
overwriting the returned reference afterwards does not change the
dataframe held by the Cleaner.  On that completing path only the three
time-derived columns are produced: average_value_fixed and unit_fixed
stay missing on every row of a fresh input frame. -/
theorem C10_inplace_and_copy (lookup : String → List Compound) (h : Heap) (self : Nat)
    (h2 : Heap) (r2 : Nat) (d : Df)
    (hself : self < h.cells.length)
    (hfresh : ∀ x ∈ readRef h self, x.average_value_fixed = none ∧ x.unit_fixed = none)
    (hok : clean_dataframe lookup h self = .ok (h2, r2)) :
    cleanPipeline lookup (readRef h self) = .ok (readRef h2 self)
    ∧ get_concentration_units (readRef h2 self) = []
    ∧ (∀ x ∈ readRef h2 self, x.average_value_fixed = none ∧ x.unit_fixed = none)
    ∧ r2 ≠ self
    ∧ readRef h2 r2 = readRef h2 self
    ∧ readRef (writeRef h2 r2 d) self = readRef h2 self := by
  unfold clean_dataframe at hok
  cases hp : cleanPipeline lookup (readRef h self) with
  | error e => rw [hp] at hok; cases hok
  | ok out =>
    rw [hp] at hok
    have hok2 : (Except.ok (⟨h.cells.set self out ++ [out]⟩, (h.cells.set self out).length) :
        Except String (Heap × Nat)) = .ok (h2, r2) := hok
    injection hok2 with hpair
    injection hpair with hh hr
    subst hh
    subst hr
    have hp2 := hp
    simp only [cleanPipeline] at hp2
    obtain ⟨hunits, hout⟩ := correctUnits_ok_iff _ _ _ _ hp2
    have hlenL : self < (h.cells.set self out).length := by
      rw [List.length_set]; exact hself
    have hA : readRef ⟨h.cells.set self out ++ [out]⟩ self = out := by
      unfold readRef
      rw [List.getD_eq_getElem?_getD, List.getElem?_append_left hlenL,
        List.getElem?_set_self hself]
      rfl
    have hC : readRef ⟨h.cells.set self out ++ [out]⟩ (h.cells.set self out).length = out := by
      unfold readRef
      rw [List.getD_eq_getElem?_getD, List.getElem?_concat_length]
      rfl
    have hNe : (h.cells.set self out).length ≠ self := by
      rw [List.length_set]; omega
    have hD : readRef (writeRef ⟨h.cells.set self out ++ [out]⟩
        (h.cells.set self out).length d) self = out := by
      unfold readRef writeRef
      rw [List.getD_eq_getElem?_getD, List.getElem?_set_ne hNe,
        List.getElem?_append_left hlenL, List.getElem?_set_self hself]
      rfl
    refine ⟨?_, ?_, ?_, hNe, ?_, ?_⟩
    · rw [hA]
    · rw [hA, hout]
      exact hunits
    · intro x hx
      rw [hA, hout] at hx
      exact df3_fresh (readRef h self) hfresh x hx
    · rw [hA, hC]
    · rw [hA, hD]

/-- C10, witness: the amended frame-effect statement at a concrete
one-cell heap whose frame has no concentration-like unit, the only kind
of frame on which clean_dataframe returns. -/
theorem C10_inplace_and_copy_witness :
    cleanPipeline glucoseLookup (readRef ⟨[[beatsRow]]⟩ 0)
      = .ok (readRef ⟨[[beatsRowCleaned], [beatsRowCleaned]]⟩ 0)
    ∧ get_concentration_units (readRef ⟨[[beatsRowCleaned], [beatsRowCleaned]]⟩ 0) = []
    ∧ (∀ x ∈ readRef ⟨[[beatsRowCleaned], [beatsRowCleaned]]⟩ 0,
        x.average_value_fixed = none ∧ x.unit_fixed = none)
    ∧ (1 : Nat) ≠ 0
    ∧ readRef ⟨[[beatsRowCleaned], [beatsRowCleaned]]⟩ 1
        = readRef ⟨[[beatsRowCleaned], [beatsRowCleaned]]⟩ 0
    ∧ readRef (writeRef ⟨[[beatsRowCleaned], [beatsRowCleaned]]⟩ 1 []) 0
        = readRef ⟨[[beatsRowCleaned], [beatsRowCleaned]]⟩ 0 :=
  C10_inplace_and_copy glucoseLookup ⟨[[beatsRow]]⟩ 0
    ⟨[[beatsRowCleaned], [beatsRowCleaned]]⟩ 1 [] (by decide) (by decide)
    (by with_unfolding_all rfl)
